import Mathlib

/-!
Verification of the invocation layer of the himalaya CLI email client
(`src/main.rs`).  The entry point `main` is shallowly embedded as a pure
function from a `World` — the raw command-line arguments, the logger
environment variable, the parsed-matches view produced by clap, and
oracles for every external fallible call (configuration load, account
selection, output construction, URI parsing, handler execution) — to the
ordered trace of externally visible events together with the propagated
result.  The claims about routing order, session lifecycle and dispatch
exclusivity are then proved as theorems about this trace.
-/

namespace Himalaya

/-- Errors propagated by fallible calls; the embedding only ever moves
them around, so a plain string payload suffices. -/
abbrev Err := String

/-- Stand-in for the loaded `Config` value (opaque to `main`). -/
structure Config where
  id : Nat
deriving DecidableEq, Repr

/-- Stand-in for the selected `Account` value (opaque to `main`). -/
structure Account where
  id : Nat
deriving DecidableEq, Repr

/-- Stand-in for the constructed `OutputService` value (opaque to `main`). -/
structure Output where
  fmt : String
deriving DecidableEq, Repr

/-- Stand-in for a parsed `Url` value (opaque to `main`). -/
structure Url where
  raw : String
deriving DecidableEq, Repr

/-- The single variant of `compl_arg::Command`: shell-completion generation. -/
inductive ComplCommand
  | generate (shell : String)
deriving DecidableEq, Repr

/-- Variants of `imap_arg::Command`. -/
inductive ImapCommand
  | notify (keepalive : Nat)
  | watch (keepalive : Nat)
deriving DecidableEq, Repr

/-- The single variant of `mbox_arg::Command`. -/
inductive MboxCommand
  | list
deriving DecidableEq, Repr

/-- Variants of `flag_arg::Command` (payload types are abstracted as
strings; `main` threads them to the handlers without inspection). -/
inductive FlagCommand
  | set (seqRange : String) (flags : String)
  | add (seqRange : String) (flags : String)
  | remove (seqRange : String) (flags : String)
deriving DecidableEq, Repr

/-- Variants of `tpl_arg::Command` (payloads abstracted, uninspected). -/
inductive TplCommand
  | new (tpl : String)
  | reply (seq : String) (all : Bool) (tpl : String)
  | forward (seq : String) (tpl : String)
deriving DecidableEq, Repr

/-- Variants of `msg_arg::Command`, mirroring the patterns matched in
`main.rs` lines 96-155; payload types are abstracted since `main` only
forwards them to the handlers. -/
inductive MsgCommand
  | attachments (seq : String)
  | copy (seq : String) (target : String)
  | delete (seq : String)
  | forward (seq : String) (atts : List String)
  | list (pageSize : Option Nat) (page : Nat)
  | move (seq : String) (target : String)
  | read (seq : String) (mime : String) (raw : Bool)
  | reply (seq : String) (all : Bool) (atts : List String)
  | save (target : String) (msg : String)
  | search (query : String) (pageSize : Option Nat) (page : Nat)
  | send (rawMsg : String)
  | write (atts : List String)
  | flag (c : Option FlagCommand)
  | tpl (c : Option TplCommand)
deriving DecidableEq, Repr

/-- Identifies which core operation handler an invocation dispatched to
(one per handler function called from `main.rs`). -/
inductive Handler
  | mailto
  | complGenerate
  | imapNotify
  | imapWatch
  | mboxList
  | msgAttachments
  | msgCopy
  | msgDelete
  | msgForward
  | msgList
  | msgMove
  | msgRead
  | msgReply
  | msgSave
  | msgSearch
  | msgSend
  | msgWrite
  | flagSet
  | flagAdd
  | flagRemove
  | tplNew
  | tplReply
  | tplForward
deriving DecidableEq, Repr

/-- The four subcommand groups whose `matches` functions `main` consults. -/
inductive SubcmdGroup
  | compl
  | imap
  | mbox
  | msg
deriving DecidableEq, Repr

/-- Externally visible events of one invocation, in program order. -/
inductive Event
  /-- `env_logger::init_from_env` with the resolved filter string. -/
  | loggerInit (filter : String)
  /-- `app.get_matches()`: the clap CLI argument parser runs. -/
  | parseArgs
  /-- A `*_arg::matches(&m)` subcommand-matching call runs. -/
  | subcmdMatch (g : SubcmdGroup)
  /-- `Config::try_from(path)` loads the configuration file. -/
  | loadConfig (path : Option String)
  /-- `Account::try_from((&config, name))` selects an account. -/
  | loadAccount (name : Option String)
  /-- `OutputService::from(fmt)` with a fixed format string. -/
  | mkOutput (fmt : String)
  /-- `OutputService::try_from(value)` from the CLI output argument. -/
  | mkOutputArg (value : Option String)
  /-- `Url::parse(uri)` parses the mailto URI. -/
  | parseUrl (uri : String)
  /-- `ImapService::from((&account, &mbox))`: the Mailbox Session is
  constructed, targeting the named mailbox (not yet connected). -/
  | mkImap (mbox : String)
  /-- `SmtpService::from(&account)`: the Delivery Session is constructed. -/
  | mkSmtp
  /-- A core operation handler is invoked. -/
  | invokeHandler (h : Handler)
  /-- `logout` is attempted on the Mailbox Session. -/
  | logout
deriving DecidableEq, Repr

/-- The parsed-matches view of the CLI arguments: the outcome of each
`*_arg::matches` call and each `m.value_of` lookup that `main` performs. -/
structure Matches where
  complMatch : Except Err (Option ComplCommand)
  imapMatch : Except Err (Option ImapCommand)
  mboxMatch : Except Err (Option MboxCommand)
  msgMatch : Except Err (Option MsgCommand)
  valueOfMailbox : Option String
  valueOfConfig : Option String
  valueOfAccount : Option String
  valueOfOutput : Option String

/-- One invocation's environment: raw arguments, logger environment
variable, the parsed-matches view, and oracles for every external
fallible call made by `main`. -/
structure World where
  rawArgs : List String
  rustLogEnv : Option String
  m : Matches
  configLoad : Option String → Except Err Config
  accountLoad : Config → Option String → Except Err Account
  outputTryFrom : Option String → Except Err Output
  urlParse : String → Except Err Url
  handlerResult : Handler → Except Err Unit
  logoutResult : Except Err Unit

/-- Whether a handler receives the Mailbox Session (`&mut imap`) from
`main`, read off the call sites in `main.rs`: every handler does except
shell-completion generation (line 63) and `tpl_handler::new` (line 146). -/
def handlerUsesImap : Handler → Bool
  | .complGenerate => false
  | .tplNew => false
  | _ => true

/-- Modelled from the spec: the core operation handlers themselves are
repository code outside `src/`; per the spec, the core "always attempts
logout/disconnect before propagating an error upward", so a handler that
receives the Mailbox Session attempts `logout` before returning.  A
handler that never receives the session cannot attempt it. -/
def handlerEvents (h : Handler) : List Event :=
  Event.invokeHandler h :: (if handlerUsesImap h then [Event.logout] else [])

/-- Modelled from the spec: `Mbox::try_from` (repository code outside
`src/`) resolves the optional `--mailbox` argument, defaulting to the
spec's default mailbox name `"INBOX"` when absent. -/
def mboxTryFrom : Option String → String
  | none => "INBOX"
  | some s => s

/-- Rust's standard-library `str::starts_with` as used at `main.rs`
line 45, computed structurally over the character sequence (equivalent
to the byte-level check on UTF-8 strings). -/
def strStartsWith (s p : String) : Bool :=
  s.data.take p.data.length == p.data

/-- The first positional argument when it starts with `"mailto:"`
(`main.rs` line 45: `raw_args.len() > 1 && raw_args[1].starts_with`). -/
def mailtoArg (w : World) : Option String :=
  match w.rawArgs with
  | _ :: a1 :: _ => if strStartsWith a1 "mailto:" then some a1 else none
  | _ => none

/-- The mailto branch of `main` (`main.rs` lines 45-54): fixed
`"INBOX"` mailbox, default config and account, plain output, URI parse,
session construction, then the mailto handler. -/
def runMailto (w : World) (uri : String) : List Event × Except Err Unit :=
  match w.configLoad none with
  | .error e => ([Event.loadConfig none], .error e)
  | .ok config =>
    match w.accountLoad config none with
    | .error e => ([Event.loadConfig none, Event.loadAccount none], .error e)
    | .ok _account =>
      match w.urlParse uri with
      | .error e =>
          ([Event.loadConfig none, Event.loadAccount none,
            Event.mkOutput "plain", Event.parseUrl uri], .error e)
      | .ok _url =>
          ([Event.loadConfig none, Event.loadAccount none,
            Event.mkOutput "plain", Event.parseUrl uri,
            Event.mkImap "INBOX", Event.mkSmtp] ++ handlerEvents .mailto,
           w.handlerResult .mailto)

/-- Dispatch over `msg_arg::Command` (`main.rs` lines 95-157), including
the nested flag and tpl sub-subcommand matches; an unrecognized
sub-subcommand falls through to the trailing `imap.logout()`. -/
def dispatchMsg (w : World) (c : MsgCommand) (pre : List Event) :
    List Event × Except Err Unit :=
  match c with
  | .attachments _ =>
      (pre ++ handlerEvents .msgAttachments, w.handlerResult .msgAttachments)
  | .copy _ _ => (pre ++ handlerEvents .msgCopy, w.handlerResult .msgCopy)
  | .delete _ => (pre ++ handlerEvents .msgDelete, w.handlerResult .msgDelete)
  | .forward _ _ =>
      (pre ++ handlerEvents .msgForward, w.handlerResult .msgForward)
  | .list _ _ => (pre ++ handlerEvents .msgList, w.handlerResult .msgList)
  | .move _ _ => (pre ++ handlerEvents .msgMove, w.handlerResult .msgMove)
  | .read _ _ _ => (pre ++ handlerEvents .msgRead, w.handlerResult .msgRead)
  | .reply _ _ _ =>
      (pre ++ handlerEvents .msgReply, w.handlerResult .msgReply)
  | .save _ _ => (pre ++ handlerEvents .msgSave, w.handlerResult .msgSave)
  | .search _ _ _ =>
      (pre ++ handlerEvents .msgSearch, w.handlerResult .msgSearch)
  | .send _ => (pre ++ handlerEvents .msgSend, w.handlerResult .msgSend)
  | .write _ => (pre ++ handlerEvents .msgWrite, w.handlerResult .msgWrite)
  | .flag fc =>
      match fc with
      | some (.set _ _) =>
          (pre ++ handlerEvents .flagSet, w.handlerResult .flagSet)
      | some (.add _ _) =>
          (pre ++ handlerEvents .flagAdd, w.handlerResult .flagAdd)
      | some (.remove _ _) =>
          (pre ++ handlerEvents .flagRemove, w.handlerResult .flagRemove)
      | none => (pre ++ [Event.logout], w.logoutResult)
  | .tpl tc =>
      match tc with
      | some (.new _) =>
          (pre ++ handlerEvents .tplNew, w.handlerResult .tplNew)
      | some (.reply _ _ _) =>
          (pre ++ handlerEvents .tplReply, w.handlerResult .tplReply)
      | some (.forward _ _) =>
          (pre ++ handlerEvents .tplForward, w.handlerResult .tplForward)
      | none => (pre ++ [Event.logout], w.logoutResult)

/-- Dispatch over the imap, mbox and msg subcommand groups
(`main.rs` lines 75-160); falling through every arm reaches the trailing
`imap.logout()`. -/
def dispatch (w : World) (pre : List Event) : List Event × Except Err Unit :=
  match w.m.imapMatch with
  | .error e => (pre ++ [Event.subcmdMatch .imap], .error e)
  | .ok (some (.notify _)) =>
      (pre ++ [Event.subcmdMatch .imap] ++ handlerEvents .imapNotify,
       w.handlerResult .imapNotify)
  | .ok (some (.watch _)) =>
      (pre ++ [Event.subcmdMatch .imap] ++ handlerEvents .imapWatch,
       w.handlerResult .imapWatch)
  | .ok none =>
    match w.m.mboxMatch with
    | .error e =>
        (pre ++ [Event.subcmdMatch .imap, Event.subcmdMatch .mbox], .error e)
    | .ok (some .list) =>
        (pre ++ [Event.subcmdMatch .imap, Event.subcmdMatch .mbox]
             ++ handlerEvents .mboxList,
         w.handlerResult .mboxList)
    | .ok none =>
      match w.m.msgMatch with
      | .error e =>
          (pre ++ [Event.subcmdMatch .imap, Event.subcmdMatch .mbox,
                   Event.subcmdMatch .msg], .error e)
      | .ok (some c) =>
          dispatchMsg w c
            (pre ++ [Event.subcmdMatch .imap, Event.subcmdMatch .mbox,
                     Event.subcmdMatch .msg])
      | .ok none =>
          (pre ++ [Event.subcmdMatch .imap, Event.subcmdMatch .mbox,
                   Event.subcmdMatch .msg, Event.logout],
           w.logoutResult)

/-- The non-mailto branch of `main` (`main.rs` lines 56-160): the clap
parser runs, the completion check happens before any entity or service
initialization, then mailbox/config/account/output resolution, session
construction, and subcommand dispatch. -/
def runCli (w : World) : List Event × Except Err Unit :=
  match w.m.complMatch with
  | .error e => ([Event.parseArgs, Event.subcmdMatch .compl], .error e)
  | .ok (some (.generate _)) =>
      ([Event.parseArgs, Event.subcmdMatch .compl]
          ++ handlerEvents .complGenerate,
       w.handlerResult .complGenerate)
  | .ok none =>
    match w.configLoad w.m.valueOfConfig with
    | .error e =>
        ([Event.parseArgs, Event.subcmdMatch .compl,
          Event.loadConfig w.m.valueOfConfig], .error e)
    | .ok config =>
      match w.accountLoad config w.m.valueOfAccount with
      | .error e =>
          ([Event.parseArgs, Event.subcmdMatch .compl,
            Event.loadConfig w.m.valueOfConfig,
            Event.loadAccount w.m.valueOfAccount], .error e)
      | .ok _account =>
        match w.outputTryFrom w.m.valueOfOutput with
        | .error e =>
            ([Event.parseArgs, Event.subcmdMatch .compl,
              Event.loadConfig w.m.valueOfConfig,
              Event.loadAccount w.m.valueOfAccount,
              Event.mkOutputArg w.m.valueOfOutput], .error e)
        | .ok _output =>
            dispatch w
              [Event.parseArgs, Event.subcmdMatch .compl,
               Event.loadConfig w.m.valueOfConfig,
               Event.loadAccount w.m.valueOfAccount,
               Event.mkOutputArg w.m.valueOfOutput,
               Event.mkImap (mboxTryFrom w.m.valueOfMailbox),
               Event.mkSmtp]

/-- The embedded entry point (`main.rs` lines 37-160): logger
initialization first, then the mailto check before any app
initialization, then the CLI path. -/
def main (w : World) : List Event × Except Err Unit :=
  match mailtoArg w with
  | some uri =>
      (Event.loggerInit (w.rustLogEnv.getD "off") :: (runMailto w uri).1,
       (runMailto w uri).2)
  | none =>
      (Event.loggerInit (w.rustLogEnv.getD "off") :: (runCli w).1,
       (runCli w).2)

/-- Recognizes logger-initialization events. -/
def isLoggerInit : Event → Bool
  | .loggerInit _ => true
  | _ => false

/-- Recognizes handler-invocation events. -/
def isInvokeHandler : Event → Bool
  | .invokeHandler _ => true
  | _ => false

/-- Recognizes Mailbox Session construction events. -/
def isMkImap : Event → Bool
  | .mkImap _ => true
  | _ => false

/-- Recognizes Delivery Session construction events. -/
def isMkSmtp : Event → Bool
  | .mkSmtp => true
  | _ => false

/-- Modelled from the spec: the mailbox connection state after one event.
Constructing the Mailbox Session leaves it disconnected (the service
connects lazily when a handler issues operations, per the session
lifecycle in the spec); a handler that receives the session opens the
connection by operating on it; `logout` closes it. -/
def connStep (c : Bool) : Event → Bool
  | .invokeHandler h => c || handlerUsesImap h
  | .logout => false
  | _ => c

/-- Whether a mailbox connection is still open after the given trace. -/
def connAfter (tr : List Event) : Bool :=
  tr.foldl connStep false

/-- Checks that every invocation of a handler that receives the Mailbox
Session is immediately followed by a logout attempt. -/
def imapHandlersLogout : List Event → Bool
  | [] => true
  | Event.invokeHandler h :: rest =>
      (!handlerUsesImap h || rest.head? == some Event.logout)
        && imapHandlersLogout rest
  | _ :: rest => imapHandlersLogout rest

/-- Checks that once a handler has been invoked, the invocation ends:
nothing follows in the trace except at most the handler's own logout. -/
def handlerTailOnly : List Event → Bool
  | [] => true
  | Event.invokeHandler _ :: rest =>
      (rest == []) || (rest == [Event.logout])
  | _ :: rest => handlerTailOnly rest

/-- A parsed-matches view in which nothing matched and no optional
argument was given. -/
def baseMatches : Matches where
  complMatch := .ok none
  imapMatch := .ok none
  mboxMatch := .ok none
  msgMatch := .ok none
  valueOfMailbox := none
  valueOfConfig := none
  valueOfAccount := none
  valueOfOutput := none

/-- A concrete benign world: bare invocation, all oracles succeed. -/
def baseWorld : World where
  rawArgs := ["himalaya"]
  rustLogEnv := none
  m := baseMatches
  configLoad := fun _ => .ok ⟨0⟩
  accountLoad := fun _ _ => .ok ⟨0⟩
  outputTryFrom := fun _ => .ok ⟨"plain"⟩
  urlParse := fun s => .ok ⟨s⟩
  handlerResult := fun _ => .ok ()
  logoutResult := .ok ()

/-- A concrete invocation carrying a mailto URI as first positional
argument. -/
def mailtoWorld : World :=
  { baseWorld with rawArgs := ["himalaya", "mailto:a@x.com"] }

/-- A concrete mailto invocation whose URI fails to parse. -/
def badUriWorld : World :=
  { baseWorld with
      rawArgs := ["himalaya", "mailto:%%"]
      urlParse := fun _ => .error "relative URL without a base" }

/-- A concrete invocation matching the shell-completion subcommand. -/
def complWorld : World :=
  { baseWorld with
      m := { baseMatches with complMatch := .ok (some (.generate "zsh")) } }

/-- A concrete invocation matching the tpl new sub-subcommand. -/
def tplNewWorld : World :=
  { baseWorld with
      m := { baseMatches with msgMatch := .ok (some (.tpl (some (.new "")))) } }

/-- A concrete invocation whose message-flag group carries no recognized
sub-subcommand. -/
def flagNoneWorld : World :=
  { baseWorld with
      m := { baseMatches with msgMatch := .ok (some (.flag none)) } }

/-- Structural facts about every possible trace of `main`, by exhaustive
case analysis over all dispatch branches: the logger is initialized
exactly once, at most one handler is invoked, at most one Mailbox
Session and at most one Delivery Session are constructed, no mailbox
connection is open at the end, every session-receiving handler is
immediately followed by a logout attempt, and nothing follows a handler
invocation except at most its logout. -/
theorem main_trace_facts (w : World) :
    (main w).1.countP isLoggerInit = 1 ∧
    (main w).1.countP isInvokeHandler ≤ 1 ∧
    (main w).1.countP isMkImap ≤ 1 ∧
    (main w).1.countP isMkSmtp ≤ 1 ∧
    connAfter (main w).1 = false ∧
    imapHandlersLogout (main w).1 = true ∧
    handlerTailOnly (main w).1 = true := by
  unfold main runMailto runCli dispatch dispatchMsg handlerEvents
  (repeat' split) <;>
    simp_all [List.countP_append, List.countP_cons, isLoggerInit,
      isInvokeHandler, isMkImap, isMkSmtp, connAfter, connStep,
      handlerUsesImap, imapHandlersLogout, handlerTailOnly,
      List.foldl_append]

/-- Every Mailbox Session constructed by `main` targets either the fixed
`"INBOX"` of the mailto branch or the resolved `--mailbox` argument of
the CLI branch (the latter only on non-mailto invocations). -/
theorem main_mkImap_name (w : World) :
    ∀ s, Event.mkImap s ∈ (main w).1 →
      s = "INBOX" ∨ (mailtoArg w = none ∧ s = mboxTryFrom w.m.valueOfMailbox) := by
  unfold main runMailto runCli dispatch dispatchMsg handlerEvents
  (repeat' split) <;>
    simp_all [List.mem_append, List.mem_cons]

/-- The very first event of every invocation is logger initialization,
with the filter resolved from the environment variable, `"off"` when it
is unset. -/
theorem main_head_loggerInit (w : World) :
    (main w).1.head? = some (Event.loggerInit (w.rustLogEnv.getD "off")) := by
  unfold main
  split <;> rfl

/-- C1: For every invocation whose first positional argument starts with
"mailto:", the program routes it to the mailto handler (with a mailbox
session and delivery session) and returns that handler's result, without
ever invoking the CLI argument parser or any subcommand matching —
argument parsing never runs before the mailto check. -/
theorem mailto_routed_before_any_arg_parsing (w : World) (uri : String)
    (hm : mailtoArg w = some uri) :
    Event.parseArgs ∉ (main w).1 ∧
    (∀ g, Event.subcmdMatch g ∉ (main w).1) ∧
    (∀ c a u, w.configLoad none = .ok c → w.accountLoad c none = .ok a →
      w.urlParse uri = .ok u →
      (main w).1 = [Event.loggerInit (w.rustLogEnv.getD "off"),
        Event.loadConfig none, Event.loadAccount none, Event.mkOutput "plain",
        Event.parseUrl uri, Event.mkImap "INBOX", Event.mkSmtp,
        Event.invokeHandler .mailto, Event.logout] ∧
      (main w).2 = w.handlerResult .mailto) := by
  unfold main runMailto handlerEvents
  simp only [hm]
  (repeat' split) <;> simp_all [handlerUsesImap]
  all_goals (intros; subst_vars; simp_all)

/-- Witness: a concrete mailto invocation is routed to the mailto
handler without the CLI parser running. -/
theorem mailto_routed_before_any_arg_parsing_witness :
    Event.parseArgs ∉ (main mailtoWorld).1 ∧
    (main mailtoWorld).2 = mailtoWorld.handlerResult .mailto := by
  have h := mailto_routed_before_any_arg_parsing mailtoWorld "mailto:a@x.com"
    (by decide)
  exact ⟨h.1, (h.2.2 ⟨0⟩ ⟨0⟩ ⟨"mailto:a@x.com"⟩ rfl rfl rfl).2⟩

/-- C4: If the first positional argument starts with "mailto:" but is
not a well-formed URI, the invocation fails with the parse error
propagated from URI parsing, before any mailto handling of the message:
no handler is invoked and no session is constructed. -/
theorem malformed_mailto_uri_fails_before_handling (w : World)
    (uri : String) (e : Err)
    (hm : mailtoArg w = some uri) (hu : w.urlParse uri = .error e) :
    Event.invokeHandler .mailto ∉ (main w).1 ∧
    (∀ s, Event.mkImap s ∉ (main w).1) ∧
    Event.mkSmtp ∉ (main w).1 ∧
    (∀ c a, w.configLoad none = .ok c → w.accountLoad c none = .ok a →
      (main w).2 = .error e) := by
  unfold main runMailto handlerEvents
  simp only [hm]
  (repeat' split) <;> simp_all
  all_goals (intros; subst_vars; simp_all)

/-- Witness: a concrete malformed mailto URI propagates its parse error
and the mailto handler is never invoked. -/
theorem malformed_mailto_uri_fails_before_handling_witness :
    Event.invokeHandler .mailto ∉ (main badUriWorld).1 ∧
    (main badUriWorld).2 = .error "relative URL without a base" := by
  have h := malformed_mailto_uri_fails_before_handling badUriWorld "mailto:%%"
    "relative URL without a base" (by decide) rfl
  exact ⟨h.1, h.2.2.2 ⟨0⟩ ⟨0⟩ rfl rfl⟩

/-- C5: When the invocation provides no mailbox argument — in
particular on every mailto-dispatched invocation — the Mailbox Session
is created targeting the default mailbox "INBOX". -/
theorem default_mailbox_is_inbox (w : World)
    (h : w.m.valueOfMailbox = none ∨ mailtoArg w ≠ none) :
    ∀ s, Event.mkImap s ∈ (main w).1 → s = "INBOX" := by
  intro s hs
  rcases main_mkImap_name w s hs with h1 | ⟨h2, h3⟩
  · exact h1
  · rcases h with hv | hma
    · rw [h3, hv]; rfl
    · exact absurd h2 hma

/-- Witness: a concrete invocation without a mailbox argument constructs
its Mailbox Session targeting "INBOX". -/
theorem default_mailbox_is_inbox_witness :
    Event.mkImap "INBOX" ∈ (main baseWorld).1 ∧ ("INBOX" : String) = "INBOX" :=
  ⟨by decide, default_mailbox_is_inbox baseWorld (Or.inl rfl) "INBOX" (by decide)⟩

/-- C7: Logger initialization is performed exactly once per invocation,
as the first action before any routing, session construction, or core
operation; when the logging environment variable is unset, the filter
defaults to "off". -/
theorem logger_init_first_and_once (w : World) :
    (main w).1.head? = some (Event.loggerInit (w.rustLogEnv.getD "off")) ∧
    (main w).1.countP isLoggerInit = 1 ∧
    (w.rustLogEnv = none →
      (main w).1.head? = some (Event.loggerInit "off")) := by
  refine ⟨main_head_loggerInit w, (main_trace_facts w).1, ?_⟩
  intro h
  have hh := main_head_loggerInit w
  rw [h] at hh
  exact hh

/-- Witness: with the logging environment variable unset, the first
event is logger initialization with filter "off". -/
theorem logger_init_first_and_once_witness :
    (main baseWorld).1.head? = some (Event.loggerInit "off") :=
  (logger_init_first_and_once baseWorld).2.2 rfl

/-- C3: At most one core operation handler is invoked per invocation:
each matched arm returns immediately after its handler (nothing follows
a handler invocation in the trace except at most its own logout), and
the invocation terminates the session afterwards (no mailbox connection
remains open at the end of any run). -/
theorem at_most_one_handler_per_invocation (w : World) :
    (main w).1.countP isInvokeHandler ≤ 1 ∧
    handlerTailOnly (main w).1 = true ∧
    connAfter (main w).1 = false :=
  ⟨(main_trace_facts w).2.1, (main_trace_facts w).2.2.2.2.2.2,
   (main_trace_facts w).2.2.2.2.1⟩

/-- Counterexample to C2 as stated: on the tpl new dispatch path the
invocation completes without any logout attempt on the constructed
Mailbox Session — logout is not attempted on every exit path. -/
theorem logout_not_attempted_on_tpl_new_path :
    Event.logout ∉ (main tplNewWorld).1 ∧ (main tplNewWorld).2 = .ok () :=
  ⟨by decide, rfl⟩

/-- C2 (amended): every handler that receives the Mailbox Session
attempts logout before its result or error propagates, and no run ends
with an open mailbox connection; exit paths that never hand the session
to a handler attempt no logout but also open no connection, so a
connection is never leaked. -/
theorem session_never_leaked (w : World) :
    imapHandlersLogout (main w).1 = true ∧ connAfter (main w).1 = false :=
  ⟨(main_trace_facts w).2.2.2.2.2.1, (main_trace_facts w).2.2.2.2.1⟩

/-- Counterexample to C6 as stated: a shell-completion invocation
constructs no Mailbox Session at all, so "exactly one Mailbox Session is
constructed" fails. -/
theorem completion_invocation_constructs_no_mailbox_session :
    ¬ (main complWorld).1.countP isMkImap = 1 := by
  decide

/-- C6 (amended): in every invocation at most one Mailbox Session and
at most one Delivery Session are constructed, so no operation is ever
issued against a second instance of either session type. -/
theorem at_most_one_session_of_each_type (w : World) :
    (main w).1.countP isMkImap ≤ 1 ∧ (main w).1.countP isMkSmtp ≤ 1 :=
  ⟨(main_trace_facts w).2.2.1, (main_trace_facts w).2.2.2.1⟩

/-- C8: On every mailto-dispatched invocation the configuration is
loaded from the default location (no explicit config path), the default
account is selected, and the output format is fixed to "plain",
regardless of any other command-line arguments present. -/
theorem mailto_uses_default_config_account_plain_output (w : World)
    (uri : String) (hm : mailtoArg w = some uri) :
    Event.loadConfig none ∈ (main w).1 ∧
    (∀ p, Event.loadConfig p ∈ (main w).1 → p = none) ∧
    (∀ n, Event.loadAccount n ∈ (main w).1 → n = none) ∧
    (∀ f, Event.mkOutput f ∈ (main w).1 → f = "plain") ∧
    (∀ v, Event.mkOutputArg v ∉ (main w).1) := by
  unfold main runMailto handlerEvents
  simp only [hm]
  (repeat' split) <;> simp_all

/-- Witness: a concrete mailto invocation loads the default config and
never constructs the argument-driven output service. -/
theorem mailto_uses_default_config_account_plain_output_witness :
    Event.loadConfig none ∈ (main mailtoWorld).1 ∧
    Event.mkOutputArg none ∉ (main mailtoWorld).1 := by
  have h := mailto_uses_default_config_account_plain_output mailtoWorld
    "mailto:a@x.com" (by decide)
  exact ⟨h.1, h.2.2.2.2 none⟩

/-- C9: When the shell-completion generation subcommand matches, the
program returns the completion output without loading the configuration
or account and without constructing a Mailbox Session or Delivery
Session. -/
theorem completion_skips_config_and_sessions (w : World) (shell : String)
    (hm : mailtoArg w = none)
    (hc : w.m.complMatch = .ok (some (.generate shell))) :
    (main w).2 = w.handlerResult .complGenerate ∧
    (∀ p, Event.loadConfig p ∉ (main w).1) ∧
    (∀ n, Event.loadAccount n ∉ (main w).1) ∧
    (∀ s, Event.mkImap s ∉ (main w).1) ∧
    Event.mkSmtp ∉ (main w).1 ∧
    Event.invokeHandler .complGenerate ∈ (main w).1 := by
  unfold main runCli handlerEvents
  simp [hm, hc, handlerUsesImap]

/-- Witness: a concrete completion invocation returns the generator's
result and constructs no Delivery Session. -/
theorem completion_skips_config_and_sessions_witness :
    (main complWorld).2 = complWorld.handlerResult .complGenerate ∧
    Event.mkSmtp ∉ (main complWorld).1 := by
  have h := completion_skips_config_and_sessions complWorld "zsh" rfl rfl
  exact ⟨h.1, h.2.2.2.2.1⟩

/-- C10: When no subcommand matches, or a recognized group subcommand
(message flag, message tpl) carries no recognized sub-subcommand, the
invocation invokes no operation handler: it falls through every dispatch
arm, logs out the Mailbox Session, and returns the logout result. -/
theorem unmatched_subcommand_falls_through_to_logout (w : World)
    (cfg : Config) (acc : Account) (out : Output)
    (hm : mailtoArg w = none)
    (hc : w.m.complMatch = .ok none)
    (hcfg : w.configLoad w.m.valueOfConfig = .ok cfg)
    (hacc : w.accountLoad cfg w.m.valueOfAccount = .ok acc)
    (hout : w.outputTryFrom w.m.valueOfOutput = .ok out)
    (hi : w.m.imapMatch = .ok none)
    (hb : w.m.mboxMatch = .ok none)
    (hmsg : w.m.msgMatch = .ok none ∨
            w.m.msgMatch = .ok (some (.flag none)) ∨
            w.m.msgMatch = .ok (some (.tpl none))) :
    (main w).1.countP isInvokeHandler = 0 ∧
    Event.logout ∈ (main w).1 ∧
    (main w).2 = w.logoutResult := by
  unfold main runCli dispatch dispatchMsg
  rcases hmsg with h | h | h <;>
    simp_all [List.countP_append, List.countP_cons, isInvokeHandler]

/-- Witness: a concrete invocation whose message-flag group carries no
recognized sub-subcommand invokes no handler and returns the logout
result. -/
theorem unmatched_subcommand_falls_through_to_logout_witness :
    (main flagNoneWorld).1.countP isInvokeHandler = 0 ∧
    (main flagNoneWorld).2 = flagNoneWorld.logoutResult := by
  have h := unmatched_subcommand_falls_through_to_logout flagNoneWorld
    ⟨0⟩ ⟨0⟩ ⟨"plain"⟩ rfl rfl rfl rfl rfl rfl rfl (Or.inr (Or.inl rfl))
  exact ⟨h.1, h.2.2⟩

end Himalaya
